import Mathlib

/-
Verification of the edgee-ai/python-sdk examples against their specification.

The repository contains two example scripts (src/example/test.py and
src/example/compression.py) that exercise a gateway client facade
(`Edgee(api_key).send(model, input)`).  The facade itself lives in the
external `edgee` package, which is not part of the source tree; the
specification documents its request/response contract.  The development
below embeds that contract as explicit Lean definitions, parameterised by
the external collaborators (token counting, the compression transformation
and the downstream completion call), and embeds the one piece of concrete
decision logic that does appear in the source: the `savings_pct`
computation of src/example/compression.py.
-/

namespace EdgeeSpec

/-- Modelled from the spec: the role of a chat message, one of
system, user or assistant (spec section 3, Message). -/
inductive Role
  | system
  | user
  | assistant
deriving DecidableEq

/-- Modelled from the spec: a chat message, `{role, content}`
(spec section 3, Message).  The `edgee` package defining this shape is
not in the source tree. -/
structure Message where
  role : Role
  content : String
deriving DecidableEq

/-- Modelled from the spec: the `function` part of a tool definition;
passed through opaquely, so the JSON-schema `parameters` object is kept
as an uninterpreted string (spec section 3, ToolDefinition). -/
structure ToolFunction where
  name : String
  description : String
  parameters : String
deriving DecidableEq

/-- Modelled from the spec: a tool definition
`{type, function {name, description, parameters}}` (spec section 3). -/
structure ToolDefinition where
  type : String
  function : ToolFunction
deriving DecidableEq

/-- Modelled from the spec: the structured form of a request input
(spec section 3, RequestInput): a message list with optional tools,
tool choice and compression directives. -/
structure StructuredInput where
  messages : List Message
  tools : Option (List ToolDefinition)
  tool_choice : Option String
  enable_compression : Option Bool
  compression_rate : Option Rat
deriving DecidableEq

/-- Modelled from the spec: a request input is either a bare string or
the structured object (spec section 3, RequestInput). -/
inductive RequestInput
  | str (s : String)
  | obj (o : StructuredInput)
deriving DecidableEq

/-- Modelled from the spec: token-usage counters of a response
(spec section 3, UsageMetrics). -/
structure UsageMetrics where
  prompt_tokens : Nat
  completion_tokens : Nat
  total_tokens : Nat
deriving DecidableEq

/-- Modelled from the spec: compression metrics of a response
(spec section 3, CompressionMetrics). -/
structure CompressionMetrics where
  input_tokens : Nat
  saved_tokens : Nat
  rate : Rat
deriving DecidableEq

/-- Modelled from the spec: the message carried by a response choice,
with `content` and optional `tool_calls` (spec section 3, Response). -/
structure ChoiceMessage where
  content : String
  tool_calls : Option (List String)
deriving DecidableEq

/-- Modelled from the spec: one response choice (spec section 3). -/
structure Choice where
  message : ChoiceMessage
deriving DecidableEq

/-- Modelled from the spec: the response returned by `send`, with
optional `usage` and `compression` fields (spec section 3, Response). -/
structure Response where
  text : String
  choices : List Choice
  usage : Option UsageMetrics
  compression : Option CompressionMetrics
deriving DecidableEq

/-- Modelled from the spec: the error taxonomy of the facade
(spec section 7). -/
inductive SendError
  | authenticationError
  | invalidRequestError
  | providerError
deriving DecidableEq

/-- Modelled from the spec: the client object, holding only the static
API key set at construction (spec sections 4.1 and 6); `os.environ.get`
may return no key, hence the option. -/
structure Edgee where
  apiKey : Option String
deriving DecidableEq

/-- Modelled from the spec: the wire payload the facade constructs from
the caller arguments and transmits downstream (spec section 4.1). -/
structure Payload where
  model : String
  messages : List Message
  tools : Option (List ToolDefinition)
  tool_choice : Option String
  enable_compression : Option Bool
  compression_rate : Option Rat
deriving DecidableEq

/-- Modelled from the spec: the external collaborators of the facade
(token counting, the compression transformation, account configuration,
key checking and the downstream completion call), which the spec leaves
to the provider (spec sections 1 and 4.1). -/
structure Provider where
  countTokens : String → Nat
  compress : Rat → String → String
  defaultRate : Rat
  supportsCompression : Bool
  acceptsKey : String → Bool
  completion : Payload → Option (String × Nat)

/-- Modelled from the spec: normalization of the request input — a bare
string is rewritten to a single-element message list with role "user"
before transmission (spec section 4.1). -/
def normalizeInput : RequestInput → StructuredInput
  | RequestInput.str s =>
      { messages := [{ role := Role.user, content := s }]
        tools := none
        tool_choice := none
        enable_compression := none
        compression_rate := none }
  | RequestInput.obj o => o

/-- Modelled from the spec: an omitted compression rate is acceptable, a
given one must lie in the closed interval [0, 1] (spec section 4.1). -/
def rateOk : Option Rat → Bool
  | none => true
  | some r => decide (0 ≤ r) && decide (r ≤ 1)

/-- Modelled from the spec: the caller input is malformed exactly when
the model string is empty, the message list is empty, or the compression
rate is outside [0, 1] (spec sections 4.1 and 7). -/
def invalidInput (model : String) (inp : StructuredInput) : Bool :=
  (model == "") || inp.messages.isEmpty || !(rateOk inp.compression_rate)

/-- Modelled from the spec: whether the held credentials are accepted;
a missing key never is (spec sections 4.1 and 7). -/
def authOk (p : Provider) (c : Edgee) : Bool :=
  match c.apiKey with
  | none => false
  | some k => p.acceptsKey k

/-- Modelled from the spec: the payload constructed by the facade is the
caller's data verbatim, message order preserved (spec sections 3-4.1). -/
def buildPayload (model : String) (inp : StructuredInput) : Payload :=
  { model := model
    messages := inp.messages
    tools := inp.tools
    tool_choice := inp.tool_choice
    enable_compression := inp.enable_compression
    compression_rate := inp.compression_rate }

def roleStr : Role → String
  | Role.system => "system"
  | Role.user => "user"
  | Role.assistant => "assistant"

def ratStr (q : Rat) : String :=
  toString q.num ++ "/" ++ toString q.den

def serializeMessage (m : Message) : String :=
  "(" ++ roleStr m.role ++ ":" ++ m.content ++ ")"

def serializeTool (t : ToolDefinition) : String :=
  t.type ++ "|" ++ t.function.name ++ "|" ++ t.function.description ++ "|" ++
    t.function.parameters

def serializeOptStr : Option String → String
  | none => "-"
  | some s => s

def serializeOptBool : Option Bool → String
  | none => "-"
  | some true => "true"
  | some false => "false"

def serializeOptRat : Option Rat → String
  | none => "-"
  | some q => ratStr q

/-- Modelled from the spec: the byte string of the wire payload, used to
state that identical calls construct byte-identical payloads
(spec section 8, idempotence property). -/
def serializePayload (pl : Payload) : String :=
  pl.model ++ ";" ++
    String.intercalate "," (pl.messages.map serializeMessage) ++ ";" ++
    (match pl.tools with
      | none => "-"
      | some ts => String.intercalate "," (ts.map serializeTool)) ++ ";" ++
    serializeOptStr pl.tool_choice ++ ";" ++
    serializeOptBool pl.enable_compression ++ ";" ++
    serializeOptRat pl.compression_rate

/-- Modelled from the spec: compression applies only to user-role
messages; system and assistant messages are never compressed
(spec section 4.1, compression policy). -/
def compressMessage (p : Provider) (rate : Rat) (m : Message) : Message :=
  match m.role with
  | Role.user => { role := Role.user, content := p.compress rate m.content }
  | _ => m

/-- Modelled from the spec: total token count of a message list under the
provider's token accounting (spec glossary, Token). -/
def msgsTokens (p : Provider) (ms : List Message) : Nat :=
  (ms.map (fun m => p.countTokens m.content)).sum

/-- Modelled from the spec: compression is performed exactly when it was
requested and is supported by the caller's account configuration
(spec section 4.1, result clause). -/
def doCompress (p : Provider) (inp : StructuredInput) : Bool :=
  inp.enable_compression.getD false && p.supportsCompression

/-- Modelled from the spec: the effective compression rate — the
requested one, or a provider-chosen default when omitted
(spec section 4.1, compression policy). -/
def effRate (p : Provider) (inp : StructuredInput) : Rat :=
  inp.compression_rate.getD p.defaultRate

/-- Modelled from the spec: the message list actually processed by the
model — user messages compressed when compression is performed,
everything else untouched (spec section 4.1). -/
def sentMessages (p : Provider) (inp : StructuredInput) : List Message :=
  if doCompress p inp then
    inp.messages.map (compressMessage p (effRate p inp))
  else
    inp.messages

/-- Modelled from the spec: the downstream exchange after validation and
authentication — the provider either fails (ProviderError, transport
retries exhausted) or returns text plus a completion token count, from
which the response with its usage and optional compression metrics is
assembled (spec sections 4.1 and 7). -/
def respond (p : Provider) (model : String) (inp : StructuredInput) :
    Except SendError Response :=
  match p.completion (buildPayload model inp) with
  | none => Except.error SendError.providerError
  | some tc =>
      Except.ok
        { text := tc.1
          choices := [{ message := { content := tc.1, tool_calls := none } }]
          usage := some
            { prompt_tokens := msgsTokens p (sentMessages p inp)
              completion_tokens := tc.2
              total_tokens := msgsTokens p (sentMessages p inp) + tc.2 }
          compression :=
            if doCompress p inp then
              some
                { input_tokens := msgsTokens p inp.messages
                  saved_tokens :=
                    msgsTokens p inp.messages - msgsTokens p (sentMessages p inp)
                  rate := effRate p inp }
            else none }

/-- Modelled from the spec: the `send` operation of the facade.  The
`edgee` package implementing it is absent from the source tree; this
definition follows the contract of spec section 4.1: malformed input is
rejected immediately with InvalidRequestError and no downstream call,
bad or missing credentials give AuthenticationError, and otherwise the
payload is transmitted (appended to the request trace) and the
downstream exchange produces the response or a ProviderError. -/
def send (p : Provider) (c : Edgee) (model : String) (input : RequestInput)
    (trace : List String) : Except SendError Response × List String :=
  if invalidInput model (normalizeInput input) then
    (Except.error SendError.invalidRequestError, trace)
  else if authOk p c then
    (respond p model (normalizeInput input),
      trace ++ [serializePayload (buildPayload model (normalizeInput input))])
  else
    (Except.error SendError.authenticationError, trace)

deriving instance DecidableEq for Except

/-- The rational 1/2, the compression rate used by
src/example/compression.py (line 96), built in lowest terms so that the
kernel can evaluate it. -/
def half : Rat := Rat.mk' 1 2 (by norm_num) (Nat.coprime_one_left 2)

/-- The rational 3/2, the out-of-range rate of the spec's failure
scenario (spec section 8), built in lowest terms so that the kernel can
evaluate it. -/
def threeHalves : Rat := Rat.mk' 3 2 (by norm_num) (by norm_num [Nat.Coprime])

/-- A concrete provider used to instantiate the contract theorems:
tokens are counted as characters, compression halves the content, every
payload is answered with a fixed completion. -/
def demoProvider : Provider :=
  { countTokens := fun s => s.length
    compress := fun _ s => String.take s (s.length / 2)
    defaultRate := half
    supportsCompression := true
    acceptsKey := fun k => k == "test-key"
    completion := fun _ => some ("Paris", 3) }

/-- A client holding the accepted key, as in src/example/test.py
(line 11). -/
def demoClient : Edgee := { apiKey := some "test-key" }

/-- A client whose key is missing (`os.environ.get` returned nothing). -/
def badClient : Edgee := { apiKey := none }

/-- A compression-enabled request whose only message is a system
message, the no-eligible-content case of the spec (section 8). -/
def sysOnlyInput : StructuredInput :=
  { messages := [{ role := Role.system, content := "abcd" }]
    tools := none
    tool_choice := none
    enable_compression := some true
    compression_rate := some half }

/-- The compression metrics `demoProvider` reports for `sysOnlyInput`:
nothing eligible, so nothing saved. -/
def sysOnlyCM : CompressionMetrics :=
  { input_tokens := 4, saved_tokens := 0, rate := half }

/-- The response `demoProvider` returns for `sysOnlyInput`. -/
def sysOnlyResp : Response :=
  { text := "Paris"
    choices := [{ message := { content := "Paris", tool_calls := none } }]
    usage := some { prompt_tokens := 4, completion_tokens := 3, total_tokens := 7 }
    compression := some sysOnlyCM }

/-- A plain request without compression directives, as in
src/example/test.py (lines 15-18). -/
def plainInput : StructuredInput :=
  { messages := [{ role := Role.user, content := "hi" }]
    tools := none
    tool_choice := none
    enable_compression := none
    compression_rate := none }

/-- The usage counters `demoProvider` reports for `plainInput`. -/
def plainUsage : UsageMetrics :=
  { prompt_tokens := 2, completion_tokens := 3, total_tokens := 5 }

/-- The response `demoProvider` returns for `plainInput`; no compression
directives, so no compression block. -/
def plainResp : Response :=
  { text := "Paris"
    choices := [{ message := { content := "Paris", tool_calls := none } }]
    usage := some plainUsage
    compression := none }

/-- A request with the out-of-range compression rate 3/2, the spec's
`compression_rate = 1.5` failure scenario (spec section 8). -/
def badRateInput : StructuredInput :=
  { messages := [{ role := Role.user, content := "hi" }]
    tools := none
    tool_choice := none
    enable_compression := some true
    compression_rate := some threeHalves }

/-- A three-message conversation exercising all roles in a fixed order,
as in src/example/test.py (lines 25-33). -/
def orderedInput : StructuredInput :=
  { messages :=
      [{ role := Role.system, content := "s" },
        { role := Role.user, content := "u" },
        { role := Role.assistant, content := "a" }]
    tools := none
    tool_choice := none
    enable_compression := none
    compression_rate := none }

/-- The savings-percentage computation of src/example/compression.py
(lines 117-122): `saved_tokens / input_tokens * 100` guarded by
`input_tokens > 0`, and `0` otherwise.  The Python floats are embedded
as rationals. -/
def savings_pct (cm : CompressionMetrics) : Rat :=
  if cm.input_tokens > 0 then
    (cm.saved_tokens : Rat) / (cm.input_tokens : Rat) * 100
  else
    0

theorem compressMessage_of_ne_user (p : Provider) (r : Rat) (m : Message)
    (h : m.role ≠ Role.user) : compressMessage p r m = m := by
  unfold compressMessage
  cases m with
  | mk role content => cases role <;> simp_all

theorem compressMessage_role (p : Provider) (r : Rat) (m : Message) :
    (compressMessage p r m).role = m.role := by
  unfold compressMessage
  cases m with
  | mk role content => cases role <;> rfl

theorem map_compressMessage_of_no_user (p : Provider) (r : Rat) (ms : List Message)
    (h : ∀ m ∈ ms, m.role ≠ Role.user) : ms.map (compressMessage p r) = ms := by
  induction ms with
  | nil => rfl
  | cons a l ih =>
      have ha : compressMessage p r a = a :=
        compressMessage_of_ne_user p r a (h a (by simp))
      have hl : l.map (compressMessage p r) = l :=
        ih (fun m hm => h m (by simp [hm]))
      simp [ha, hl]

theorem send_ok_respond (p : Provider) (c : Edgee) (model : String)
    (input : RequestInput) (t : List String) (resp : Response)
    (h : (send p c model input t).1 = Except.ok resp) :
    respond p model (normalizeInput input) = Except.ok resp := by
  by_cases h1 : invalidInput model (normalizeInput input) = true
  · simp [send, h1] at h
  · by_cases h2 : authOk p c = true
    · simpa [send, h1, h2] using h
    · simp [send, h1, h2] at h

theorem respond_ok_shape (p : Provider) (model : String) (inp : StructuredInput)
    (resp : Response) (h : respond p model inp = Except.ok resp) :
    (∃ u, resp.usage = some u ∧
        u.prompt_tokens = msgsTokens p (sentMessages p inp) ∧
        u.total_tokens = u.prompt_tokens + u.completion_tokens) ∧
    resp.compression =
      (if doCompress p inp then
        some
          { input_tokens := msgsTokens p inp.messages
            saved_tokens := msgsTokens p inp.messages - msgsTokens p (sentMessages p inp)
            rate := effRate p inp }
      else none) := by
  unfold respond at h
  cases hc : p.completion (buildPayload model inp) with
  | none => rw [hc] at h; simp at h
  | some tc =>
      rw [hc] at h
      injection h with h
      subst h
      exact ⟨⟨_, rfl, rfl, rfl⟩, rfl⟩

theorem respond_ne_invalidRequest (p : Provider) (model : String)
    (inp : StructuredInput) :
    respond p model inp ≠ Except.error SendError.invalidRequestError := by
  unfold respond
  cases hc : p.completion (buildPayload model inp) <;> simp

theorem send_trace_shift (p : Provider) (c : Edgee) (model : String)
    (input : RequestInput) (t : List String) :
    (send p c model input t).1 = (send p c model input []).1 ∧
    (send p c model input t).2 = t ++ (send p c model input []).2 := by
  by_cases h1 : invalidInput model (normalizeInput input) = true
  · simp [send, h1]
  · by_cases h2 : authOk p c = true
    · simp [send, h1, h2]
    · simp [send, h1, h2]

theorem doCompress_iff (p : Provider) (inp : StructuredInput) :
    doCompress p inp = true ↔
      inp.enable_compression = some true ∧ p.supportsCompression = true := by
  unfold doCompress
  cases he : inp.enable_compression with
  | none => simp
  | some b => cases b <;> simp

theorem invalidInput_iff (model : String) (inp : StructuredInput) :
    invalidInput model inp = true ↔
      model = "" ∨ inp.messages = [] ∨
        ∃ r, inp.compression_rate = some r ∧ ¬(0 ≤ r ∧ r ≤ 1) := by
  unfold invalidInput rateOk
  cases hr : inp.compression_rate with
  | none => simp [List.isEmpty_iff]
  | some r =>
      simp only [Bool.or_eq_true, beq_iff_eq, List.isEmpty_iff, Bool.not_eq_true',
        Bool.and_eq_true, decide_eq_true_eq, Bool.and_eq_false_iff,
        decide_eq_false_iff_not, not_le, hr, Option.some.injEq]
      constructor
      · rintro ((h | h) | h | h)
        · exact Or.inl h
        · exact Or.inr (Or.inl h)
        · exact Or.inr (Or.inr ⟨r, rfl, fun hc => absurd hc.1 (not_le.mpr h)⟩)
        · exact Or.inr (Or.inr ⟨r, rfl, fun hc => absurd hc.2 (not_le.mpr h)⟩)
      · rintro (h | h | ⟨r', hr', hc⟩)
        · exact Or.inl (Or.inl h)
        · exact Or.inl (Or.inr h)
        · rcases hr' with rfl
          rcases not_and_or.mp hc with h0 | h1
          · exact Or.inr (Or.inl (not_le.mp h0))
          · exact Or.inr (Or.inr (not_le.mp h1))

/-- Claim C1: with compression enabled, compression is applied only to
user-role messages — system and assistant messages are never rewritten —
and for every request whose message list contains no user message, any
compression metrics in the response report zero saved tokens. -/
theorem compression_only_user (p : Provider) (c : Edgee) (model : String)
    (o : StructuredInput) (t : List String) (resp : Response)
    (cm : CompressionMetrics)
    (hnouser : ∀ m ∈ o.messages, m.role ≠ Role.user)
    (hok : (send p c model (RequestInput.obj o) t).1 = Except.ok resp)
    (hcm : resp.compression = some cm) :
    (∀ r m, m.role ≠ Role.user → compressMessage p r m = m) ∧
    cm.saved_tokens = 0 := by
  refine ⟨fun r m hm => compressMessage_of_ne_user p r m hm, ?_⟩
  have hresp := send_ok_respond p c model (RequestInput.obj o) t resp hok
  have hshape := (respond_ok_shape p model o resp hresp).2
  rw [hcm] at hshape
  by_cases hd : doCompress p o = true
  · rw [if_pos hd] at hshape
    have hsent : sentMessages p o = o.messages := by
      unfold sentMessages
      rw [if_pos hd, map_compressMessage_of_no_user p _ o.messages hnouser]
    injection hshape with hshape
    rw [hshape, hsent, Nat.sub_self]
  · rw [if_neg hd] at hshape
    simp at hshape

/-- Witness for C1: the compression-enabled request whose single message
is a system message yields compression metrics with zero saved tokens. -/
theorem compression_only_user_witness :
    (send demoProvider demoClient "gpt-4o" (RequestInput.obj sysOnlyInput) []).1 =
      Except.ok sysOnlyResp ∧
    sysOnlyResp.compression = some sysOnlyCM ∧
    sysOnlyCM.saved_tokens = 0 :=
  ⟨rfl, rfl,
    (compression_only_user demoProvider demoClient "gpt-4o" sysOnlyInput []
      sysOnlyResp sysOnlyCM (by decide) rfl rfl).2⟩

/-- Claim C2: when `enable_compression` is false or omitted the response
carries no compression block, and a present compression block implies
compression was both requested and supported by the account
configuration. -/
theorem compression_presence (p : Provider) (c : Edgee) (model : String)
    (input : RequestInput) (t : List String) (resp : Response)
    (hok : (send p c model input t).1 = Except.ok resp) :
    (((normalizeInput input).enable_compression = none ∨
        (normalizeInput input).enable_compression = some false) →
      resp.compression = none) ∧
    (∀ cm, resp.compression = some cm →
      (normalizeInput input).enable_compression = some true ∧
        p.supportsCompression = true) := by
  have hresp := send_ok_respond p c model input t resp hok
  have hshape := (respond_ok_shape p model (normalizeInput input) resp hresp).2
  constructor
  · intro he
    have hd : doCompress p (normalizeInput input) = false := by
      unfold doCompress
      rcases he with h | h <;> simp [h]
    rw [hshape, hd]
    simp
  · intro cm hcm
    rw [hcm] at hshape
    by_cases hd : doCompress p (normalizeInput input) = true
    · exact (doCompress_iff p (normalizeInput input)).mp hd
    · rw [if_neg hd] at hshape
      simp at hshape

/-- Witness for C2: the plain request of src/example/test.py, with no
compression directive, comes back without a compression block. -/
theorem compression_presence_witness : plainResp.compression = none :=
  (compression_presence demoProvider demoClient "gpt-4o"
    (RequestInput.obj plainInput) [] plainResp rfl).1 (Or.inl rfl)

/-- Claim C3: every response carrying compression metrics satisfies
`0 ≤ saved_tokens ≤ input_tokens`. -/
theorem compression_invariant (p : Provider) (c : Edgee) (model : String)
    (input : RequestInput) (t : List String) (resp : Response)
    (cm : CompressionMetrics)
    (hok : (send p c model input t).1 = Except.ok resp)
    (hcm : resp.compression = some cm) :
    0 ≤ cm.saved_tokens ∧ cm.saved_tokens ≤ cm.input_tokens := by
  refine ⟨Nat.zero_le _, ?_⟩
  have hresp := send_ok_respond p c model input t resp hok
  have hshape := (respond_ok_shape p model (normalizeInput input) resp hresp).2
  rw [hcm] at hshape
  by_cases hd : doCompress p (normalizeInput input) = true
  · rw [if_pos hd] at hshape
    injection hshape with hshape
    rw [hshape]
    exact Nat.sub_le _ _
  · rw [if_neg hd] at hshape
    simp at hshape

/-- Witness for C3: the metrics of the system-only compression request
satisfy the invariant, 0 ≤ 0 ≤ 4. -/
theorem compression_invariant_witness :
    0 ≤ sysOnlyCM.saved_tokens ∧ sysOnlyCM.saved_tokens ≤ sysOnlyCM.input_tokens :=
  compression_invariant demoProvider demoClient "gpt-4o"
    (RequestInput.obj sysOnlyInput) [] sysOnlyResp sysOnlyCM rfl rfl

/-- Claim C4: every response carrying usage counters satisfies
`total_tokens = prompt_tokens + completion_tokens`. -/
theorem usage_invariant (p : Provider) (c : Edgee) (model : String)
    (input : RequestInput) (t : List String) (resp : Response)
    (u : UsageMetrics)
    (hok : (send p c model input t).1 = Except.ok resp)
    (hu : resp.usage = some u) :
    u.total_tokens = u.prompt_tokens + u.completion_tokens := by
  have hresp := send_ok_respond p c model input t resp hok
  obtain ⟨⟨u', hu', _, htot⟩, _⟩ :=
    respond_ok_shape p model (normalizeInput input) resp hresp
  rw [hu] at hu'
  injection hu' with hu'
  rw [← hu'] at htot
  exact htot

/-- Witness for C4: the usage counters of the plain request satisfy
5 = 2 + 3. -/
theorem usage_invariant_witness :
    plainUsage.total_tokens = plainUsage.prompt_tokens + plainUsage.completion_tokens :=
  usage_invariant demoProvider demoClient "gpt-4o" (RequestInput.obj plainInput)
    [] plainResp plainUsage rfl rfl

/-- Claim C5: `send` fails with InvalidRequestError exactly when the
model string is empty, the message list is empty, or the compression
rate lies outside [0, 1]; in that case no downstream request is issued
(the request trace is unchanged). -/
theorem invalid_request_exact (p : Provider) (c : Edgee) (model : String)
    (o : StructuredInput) (t : List String) :
    ((send p c model (RequestInput.obj o) t).1 =
        Except.error SendError.invalidRequestError ↔
      model = "" ∨ o.messages = [] ∨
        ∃ r, o.compression_rate = some r ∧ ¬(0 ≤ r ∧ r ≤ 1)) ∧
    ((send p c model (RequestInput.obj o) t).1 =
        Except.error SendError.invalidRequestError →
      (send p c model (RequestInput.obj o) t).2 = t) := by
  have hnorm : normalizeInput (RequestInput.obj o) = o := rfl
  have hiff : (send p c model (RequestInput.obj o) t).1 =
      Except.error SendError.invalidRequestError ↔ invalidInput model o = true := by
    by_cases h1 : invalidInput model o = true
    · simp [send, hnorm, h1]
    · by_cases h2 : authOk p c = true
      · simp [send, hnorm, h1, h2]
        exact respond_ne_invalidRequest p model o
      · simp [send, hnorm, h1, h2]
  constructor
  · rw [hiff]
    exact invalidInput_iff model o
  · intro h
    have h1 := hiff.mp h
    simp [send, hnorm, h1]

/-- Witness for C5: the spec's `compression_rate = 3/2` scenario fails
with InvalidRequestError and leaves the request trace empty. -/
theorem invalid_request_exact_witness :
    (send demoProvider demoClient "gpt-4o" (RequestInput.obj badRateInput) []).1 =
      Except.error SendError.invalidRequestError ∧
    (send demoProvider demoClient "gpt-4o" (RequestInput.obj badRateInput) []).2 = [] := by
  have h := invalid_request_exact demoProvider demoClient "gpt-4o" badRateInput []
  have h1 := h.1.mpr (Or.inr (Or.inr ⟨threeHalves, rfl, by decide⟩))
  exact ⟨h1, h.2 h1⟩

/-- Claim C6: a bare-string input is normalized to the single-element
user message list before transmission, and the whole call behaves
exactly as if the caller had passed the structured form. -/
theorem string_input_normalized (p : Provider) (c : Edgee) (model s : String)
    (t : List String) :
    normalizeInput (RequestInput.str s) =
      { messages := [{ role := Role.user, content := s }]
        tools := none
        tool_choice := none
        enable_compression := none
        compression_rate := none } ∧
    send p c model (RequestInput.str s) t =
      send p c model
        (RequestInput.obj
          { messages := [{ role := Role.user, content := s }]
            tools := none
            tool_choice := none
            enable_compression := none
            compression_rate := none }) t :=
  ⟨rfl, rfl⟩

/-- Claim C7: with a missing or rejected API key (and input that passes
validation) every call — including any retry — fails with
AuthenticationError, an error kind distinguishable from
InvalidRequestError and from ProviderError. -/
theorem auth_error_terminal (p : Provider) (c : Edgee) (model : String)
    (input : RequestInput)
    (hauth : authOk p c = false)
    (hvalid : invalidInput model (normalizeInput input) = false) :
    (∀ t, (send p c model input t).1 = Except.error SendError.authenticationError) ∧
    SendError.authenticationError ≠ SendError.invalidRequestError ∧
    SendError.authenticationError ≠ SendError.providerError := by
  refine ⟨fun t => ?_, by decide, by decide⟩
  simp [send, hvalid, hauth]

/-- Witness for C7: the client whose key lookup returned nothing fails
with AuthenticationError on the plain request. -/
theorem auth_error_terminal_witness :
    (send demoProvider badClient "gpt-4o" (RequestInput.obj plainInput) []).1 =
      Except.error SendError.authenticationError :=
  (auth_error_terminal demoProvider badClient "gpt-4o"
    (RequestInput.obj plainInput) rfl rfl).1 []

/-- Claim C8: two calls with identical arguments behave identically and
append their requests independently to the trace — no caching — and
whenever a downstream request is issued its payload bytes are the
deterministic serialization of the caller's arguments, hence
byte-identical across the two calls. -/
theorem no_caching_identical_payloads (p : Provider) (c : Edgee)
    (model : String) (input : RequestInput) (t : List String) :
    (send p c model input ((send p c model input t).2)).1 =
      (send p c model input t).1 ∧
    (send p c model input ((send p c model input t).2)).2 =
      t ++ (send p c model input []).2 ++ (send p c model input []).2 ∧
    (invalidInput model (normalizeInput input) = false → authOk p c = true →
      (send p c model input []).2 =
        [serializePayload (buildPayload model (normalizeInput input))]) := by
  refine ⟨?_, ?_, fun h1 h2 => ?_⟩
  · rw [(send_trace_shift p c model input _).1,
      (send_trace_shift p c model input t).1]
  · rw [(send_trace_shift p c model input _).2,
      (send_trace_shift p c model input t).2]
  · simp [send, h1, h2]

/-- Witness for C8: two identical plain requests leave exactly two
byte-identical payloads on the trace. -/
theorem no_caching_identical_payloads_witness :
    (send demoProvider demoClient "gpt-4o" (RequestInput.obj plainInput)
        ((send demoProvider demoClient "gpt-4o" (RequestInput.obj plainInput) []).2)).2 =
      [serializePayload (buildPayload "gpt-4o" plainInput),
        serializePayload (buildPayload "gpt-4o" plainInput)] := by
  have h := no_caching_identical_payloads demoProvider demoClient "gpt-4o"
    (RequestInput.obj plainInput) []
  rw [h.2.1, h.2.2 rfl rfl]
  rfl

/-- Claim C9: for structured input the transmitted payload carries the
caller's message list verbatim — same sequence, unreordered — and even
the gateway-side compression step preserves the position and role of
every message. -/
theorem order_preserved (p : Provider) (c : Edgee) (model : String)
    (o : StructuredInput) (t : List String)
    (hvalid : invalidInput model o = false)
    (hauth : authOk p c = true) :
    (buildPayload model (normalizeInput (RequestInput.obj o))).messages =
      o.messages ∧
    (send p c model (RequestInput.obj o) t).2 =
      t ++ [serializePayload (buildPayload model o)] ∧
    ∀ r, (o.messages.map (compressMessage p r)).map Message.role =
      o.messages.map Message.role := by
  have hnorm : normalizeInput (RequestInput.obj o) = o := rfl
  refine ⟨rfl, ?_, fun r => ?_⟩
  · simp [send, hnorm, hvalid, hauth]
  · rw [List.map_map]
    exact List.map_congr_left (fun m _ => compressMessage_role p r m)

/-- Witness for C9: the three-role conversation is transmitted as the
caller supplied it, in one payload. -/
theorem order_preserved_witness :
    (buildPayload "gpt-4o" (normalizeInput (RequestInput.obj orderedInput))).messages
      = orderedInput.messages ∧
    (send demoProvider demoClient "gpt-4o" (RequestInput.obj orderedInput) []).2 =
      [serializePayload (buildPayload "gpt-4o" orderedInput)] := by
  have h := order_preserved demoProvider demoClient "gpt-4o" orderedInput [] rfl rfl
  exact ⟨h.1, by simpa using h.2.1⟩

/-- Claim C10: the savings-percentage computation of
src/example/compression.py is total — it divides by `input_tokens` only
under the guard `input_tokens > 0`, satisfying the division's
characteristic equation there, and evaluates to 0 otherwise, including
at `input_tokens = 0`. -/
theorem savings_pct_total_eval (cm : CompressionMetrics) :
    (0 < cm.input_tokens ∧
      savings_pct cm * (cm.input_tokens : Rat) = (cm.saved_tokens : Rat) * 100) ∨
    (cm.input_tokens = 0 ∧ savings_pct cm = 0) := by
  rcases Nat.eq_zero_or_pos cm.input_tokens with h | h
  · exact Or.inr ⟨h, by simp [savings_pct, h]⟩
  · refine Or.inl ⟨h, ?_⟩
    have hz : (cm.input_tokens : Rat) ≠ 0 := by
      exact_mod_cast Nat.pos_iff_ne_zero.mp h
    rw [savings_pct, if_pos h]
    field_simp

end EdgeeSpec
